import Mathlib

/-
Verification of the PySymGym instance broker (AIAgent/launch_servers.py)
against its natural-language specification.

The broker is embedded shallowly: the mutable module-level state
(SERVER_INSTANCES queue, PROCS registry, RESULTS buffer) is passed and
returned explicitly; HTTP handlers become pure functions from state and
request data to a result together with the successor state; Python
exceptions become an explicit Except error type.  Environment interaction
(socket probing, process status polling, subprocess launching) is
parameterised by oracles: a freeness predicate on ports, a status sequence
for the polled process, and a sequence of launch attempts.
-/

namespace LaunchServers

/-- Python exceptions that the broker code can raise, by class and message. -/
inductive PyErr where
  /-- TypeError, e.g. from a call whose keyword arguments do not match the
      parameters of the callee, or from asyncio.gather applied to a
      non-awaitable. -/
  | typeError (msg : String)
  /-- RuntimeError raised explicitly by the broker. -/
  | runtimeError (msg : String)
  /-- ValueError, e.g. list.remove of an absent element. -/
  | valueError (msg : String)
  /-- IOError raised by next_free_port when the scan is exhausted. -/
  | ioError (msg : String)
  /-- queue.Empty raised by Queue.get(block=False) on an empty queue. -/
  | queueEmpty
  /-- AssertionError from a failed assert statement. -/
  | assertionError
deriving DecidableEq, Repr

/-- Modelled from the spec: the lease descriptor `ServerInstanceInfo` of
section 3 of the specification (the class itself lives in
connection/broker_conn/classes.py, which is not among the provided source
files; its field order port, wsUrl, pid is fixed by the positional
constructor calls in launch_servers.py).  A `pid` of `none` is the
`Undefined` sentinel; Stale descriptors carry `port = none` because
launch_servers.py line 120 builds them as
StaleServerInstanceInfo(None, "Empty WSUrl", pid=Undefined). -/
structure ServerInstanceInfo where
  port : Option Nat
  ws_url : String
  pid : Option Nat
deriving DecidableEq, Repr

/-- The stale descriptor produced by run_server_instance when
should_start_server is false (launch_servers.py line 120). -/
def staleInstanceInfo : ServerInstanceInfo :=
  { port := none, ws_url := "Empty WSUrl", pid := none }

/-- psutil process statuses relevant to kill_server: the loop at
launch_servers.py line 178 tests for STATUS_DEAD and STATUS_ZOMBIE. -/
inductive ProcStatus where
  | dead
  | zombie
  | running
  | sleeping
  | stopped
deriving DecidableEq, Repr

/-- The membership test `proc_info.status() in (psutil.STATUS_DEAD,
psutil.STATUS_ZOMBIE)` at launch_servers.py line 178. -/
def isDeadOrZombie : ProcStatus → Bool
  | ProcStatus.dead => true
  | ProcStatus.zombie => true
  | _ => false

/-- next_free_port (launch_servers.py lines 41-50): scan ports from `port`
up to and including `max_port`, probing each by binding and closing a
listening socket, and return the first port whose bind succeeds; raise
IOError("no free ports") when the scan is exhausted.  The bind probe is
abstracted by the oracle `free`: `free p = true` iff binding port `p`
succeeds. -/
def next_free_port (free : Nat → Bool) (port : Nat) (max_port : Nat) : Except PyErr Nat :=
  if h : port ≤ max_port then
    if free port then Except.ok port
    else next_free_port free (port + 1) max_port
  else Except.error (PyErr.ioError "no free ports")
termination_by max_port + 1 - port
decreasing_by omega

/-- The polling loop of kill_server (launch_servers.py lines 174-182):
`kill_wait status i retries` is true iff one of the next `retries` polls,
starting at poll index `i`, observes a dead or zombie status; the loop
returns at the first such observation. -/
def kill_wait (status : Nat → ProcStatus) : Nat → Nat → Bool
  | _, 0 => false
  | i, retries + 1 =>
    if isDeadOrZombie (status i) then true else kill_wait status (i + 1) retries

/-- kill_server (launch_servers.py lines 167-184).  `procs` is the PROCS
registry, `pid` the process id of the returned instance, `retries` the
configured wait_for_reset_retries, and `status` the oracle giving the
status observed by the i-th poll.  The code sends SIGKILL unconditionally
(modelled as always delivered: the target is a process the broker spawned,
so it exists at least as a zombie), then removes the pid from PROCS --
list.remove removes the first occurrence and raises ValueError when the
element is absent -- and then polls, returning on the first dead/zombie
observation and raising RuntimeError after exhausting the retries.  The
result is the final PROCS list together with the outcome; note that the
removal from PROCS persists even when the RuntimeError is raised. -/
def kill_server (procs : List Nat) (pid : Nat) (retries : Nat)
    (status : Nat → ProcStatus) : List Nat × Except PyErr Unit :=
  if pid ∈ procs then
    if kill_wait status 0 retries then (procs.erase pid, Except.ok ())
    else (procs.erase pid, Except.error (PyErr.runtimeError "could not be killed"))
  else (procs, Except.error (PyErr.valueError "list.remove(x): x not in list"))

/-- append_results (launch_servers.py lines 88-94): the POST /send_res
handler appends the decoded request body to the RESULTS buffer. -/
def append_results (results : List String) (data : String) : List String :=
  results ++ [data]

/-- send_and_clear_results (launch_servers.py lines 97-104): the GET
/recv_res handler raises RuntimeError("Must play a game first") when
RESULTS is empty, otherwise snapshots the whole buffer (the handler
serialises the snapshot with json.dumps before responding) and resets
RESULTS to the empty list.  The result is the snapshot together with the
successor buffer. -/
def send_and_clear_results (results : List String) :
    Except PyErr (List String × List String) :=
  if results.isEmpty then Except.error (PyErr.runtimeError "Must play a game first")
  else Except.ok (results, [])

/-- The marker string ADDRES_IN_USE_ERROR (launch_servers.py line 37). -/
def ADDRES_IN_USE_ERROR : String :=
  "System.Net.Sockets.SocketException (48): Address already in use"

/-- Whether `pat` occurs as a contiguous run inside `hay`. -/
def listInfixOf (pat : List Char) : List Char → Bool
  | [] => pat.isEmpty
  | a :: t => pat.isPrefixOf (a :: t) || listInfixOf pat t

/-- The Python substring test `pat in hay`. -/
def strContains (hay pat : String) : Bool :=
  listInfixOf pat.toList hay.toList

/-- One launch attempt made by the local start_server closure inside
run_server_instance (launch_servers.py lines 122-132): the pid of the
spawned child, the port picked by next_free_port for this attempt, and
the output the child has emitted. -/
structure LaunchAttempt where
  pid : Nat
  port : Nat
  out : String
deriving DecidableEq, Repr

/-- The retry loop of run_server_instance (launch_servers.py lines
135-141).  The code reads the output of the FIRST child into proc_out at
line 137 and then loops `while ADDRES_IN_USE_ERROR in proc_out`,
relaunching inside the body WITHOUT re-reading proc_out; the loop
condition therefore keeps testing the output of attempt 0.  `fuel` bounds
the number of loop iterations the embedding unfolds: a result of `none`
means the while loop has not terminated within `fuel` iterations (the
source loop is unbounded).  On exit the current attempt index is
returned. -/
def launch_loop (out0 : String) (fuel n : Nat) : Option Nat :=
  if strContains out0 ADDRES_IN_USE_ERROR then
    match fuel with
    | 0 => none
    | f + 1 => launch_loop out0 f (n + 1)
  else some n

/-- get_socket_url (launch_servers.py lines 107-108). -/
def get_socket_url (broker_port port : Nat) : String :=
  "ws://" ++ toString broker_port ++ ":" ++ toString port ++ "/gameServer"

/-- run_server_instance (launch_servers.py lines 111-152), parameterised
by the launch oracle `launches` (the n-th call of the start_server closure
yields `launches n`) and by `fuel` for the unbounded retry loop.  When
should_start_server is false it returns the stale descriptor and leaves
PROCS untouched; otherwise it runs the retry loop on the output of attempt
0, appends the accepted pid to PROCS and returns a Running descriptor for
the accepted port.  `none` means the retry loop diverged. -/
def run_server_instance (should_start_server : Bool)
    (launches : Nat → LaunchAttempt) (broker_port : Nat) (procs : List Nat)
    (fuel : Nat) : Option (ServerInstanceInfo × List Nat) :=
  if !should_start_server then some (staleInstanceInfo, procs)
  else
    match launch_loop (launches 0).out fuel 0 with
    | none => none
    | some n =>
      let a := launches n
      some ({ port := some a.port, ws_url := get_socket_url broker_port a.port,
              pid := some a.pid },
            procs ++ [a.pid])

/-- The keyword argument names supplied at the run_server_instance call
site inside dequeue_instance (launch_servers.py lines 58-61): the call is
run_server_instance(port=..., start_server=...). -/
def dequeue_call_keywords : List String := ["port", "start_server"]

/-- The keyword-only parameter names of run_server_instance
(launch_servers.py line 111): the signature is
run_server_instance(*, should_start_server: bool). -/
def run_server_instance_keywords : List String := ["should_start_server"]

/-- Python binding of keyword arguments at a call: every supplied keyword
must name a parameter of the callee and every parameter without a default
must be supplied; otherwise the call raises TypeError before the body of
the callee runs. -/
def kwargs_bind (callKw paramKw : List String) : Except PyErr Unit :=
  if callKw.all (fun k => paramKw.contains k) && paramKw.all (fun k => callKw.contains k)
  then Except.ok ()
  else Except.error (PyErr.typeError "got an unexpected keyword argument")

/-- dequeue_instance (launch_servers.py lines 53-66), the GET /get_ws
handler.  On an empty queue, Queue.get(block=False) raises queue.Empty,
which the handler re-raises (lines 64-66).  Otherwise the head descriptor
is removed, asserted Unbound, and run_server_instance is called -- with
the keyword arguments `port` and `start_server`, which must bind against
the parameter list of run_server_instance before its body can run.  The
result is the HTTP outcome together with the successor queue and PROCS
registry; note that the dequeued descriptor is gone from the queue even on
the exception paths. -/
def dequeue_instance (pool : List ServerInstanceInfo) (enabled : Bool)
    (launches : Nat → LaunchAttempt) (broker_port : Nat) (procs : List Nat)
    (fuel : Nat) :
    Except PyErr ServerInstanceInfo × List ServerInstanceInfo × List Nat :=
  match pool with
  | [] => (Except.error PyErr.queueEmpty, [], procs)
  | h :: t =>
    if h.pid ≠ none then (Except.error PyErr.assertionError, t, procs)
    else
      match kwargs_bind dequeue_call_keywords run_server_instance_keywords with
      | Except.error e => (Except.error e, t, procs)
      | Except.ok _ =>
        match run_server_instance enabled launches broker_port procs fuel with
        | none => (Except.error (PyErr.runtimeError "launch retry loop diverged"), t, procs)
        | some (info, procs2) => (Except.ok info, t, procs2)

/-- enqueue_instance (launch_servers.py lines 69-85), the POST /post_ws
handler.  When ON_GAME_SERVER_RESTART is enabled it calls kill_server on
the returned descriptor -- os.kill(info.pid, SIGKILL) raises TypeError
when the pid is the Undefined sentinel rather than an integer -- and then
rebuilds the descriptor as ServerInstanceInfo(port, ws_url, pid=Undefined)
before putting it on the queue; exceptions from kill_server propagate and
skip the put.  When the feature is disabled the returned descriptor is
enqueued unchanged.  The result is the HTTP outcome, the successor queue
and the successor PROCS registry. -/
def enqueue_instance (enabled : Bool) (pool : List ServerInstanceInfo)
    (procs : List Nat) (retries : Nat) (status : Nat → ProcStatus)
    (info : ServerInstanceInfo) :
    Except PyErr Unit × List ServerInstanceInfo × List Nat :=
  if enabled then
    match info.pid with
    | none => (Except.error (PyErr.typeError "an integer is required"), pool, procs)
    | some pid =>
      match kill_server procs pid retries status with
      | (procs2, Except.ok _) =>
        (Except.ok (),
         pool ++ [{ port := info.port, ws_url := info.ws_url, pid := none }],
         procs2)
      | (procs2, Except.error e) => (Except.error e, pool, procs2)
  else (Except.ok (), pool ++ [info], procs)

/-- Arguments of an asyncio.gather call: either a coroutine object (the
value it would produce when awaited) or a generator object, which is not
awaitable. -/
inductive PyAsyncArg where
  | coro (result : ServerInstanceInfo)
  | genexpr (items : List PyAsyncArg)

/-- asyncio.ensure_future: accepts a coroutine, rejects a bare generator
object with TypeError. -/
def ensure_future : PyAsyncArg → Except PyErr ServerInstanceInfo
  | PyAsyncArg.coro r => Except.ok r
  | PyAsyncArg.genexpr _ =>
    Except.error
      (PyErr.typeError "An asyncio.Future, a coroutine or an awaitable is required")

/-- asyncio.gather: wraps each positional argument with ensure_future,
raising the first TypeError synchronously. -/
def asyncio_gather (args : List PyAsyncArg) : Except PyErr (List ServerInstanceInfo) :=
  args.mapM ensure_future

/-- run_servers (launch_servers.py lines 155-164).  servers_start_tasks
starts empty; the code then evaluates
`asyncio.gather(run() for _ in range(size))` -- passing the generator
expression itself as the single positional argument, neither unpacked with
`*` nor awaited -- so gather receives one non-awaitable argument and
raises TypeError before any run() coroutine executes.  (Each run() would
await run_server_instance(should_start_server=False), i.e. produce the
stale descriptor; and even if gather accepted the argument, the missing
await means run_servers would return servers_start_tasks while still
empty.)  -/
def run_servers (size : Nat) : Except PyErr (List ServerInstanceInfo) :=
  let servers_start_tasks : List ServerInstanceInfo := []
  match asyncio_gather
      [PyAsyncArg.genexpr (List.replicate size (PyAsyncArg.coro staleInstanceInfo))] with
  | Except.error e => Except.error e
  | Except.ok _ => Except.ok servers_start_tasks

/-- The configuration record FeatureConfig.ON_GAME_SERVER_RESTART used by
launch_servers.py: the enabled flag read at lines 60, 77 and 220, and the
termination polling parameters read at lines 172 and 181. -/
structure FeatureConfig where
  on_game_server_restart_enabled : Bool
  wait_for_reset_retries : Nat
  wait_for_reset_time : Nat
deriving DecidableEq, Repr

/-- The value of the launch argument built at the run_server_instance call
site inside dequeue_instance (launch_servers.py line 60):
start_server=FeatureConfig.ON_GAME_SERVER_RESTART.enabled. -/
def dequeue_start_server_arg (cfg : FeatureConfig) : Bool :=
  cfg.on_game_server_restart_enabled

/-- The recycling condition tested by enqueue_instance (launch_servers.py
line 77): if FeatureConfig.ON_GAME_SERVER_RESTART.enabled. -/
def enqueue_restart_condition (cfg : FeatureConfig) : Bool :=
  cfg.on_game_server_restart_enabled

/-- The observable broker state for the pool invariant: the queue of
descriptors, the descriptors issued to clients and not yet returned, and
the PROCS registry. -/
structure BrokerState where
  pool : List ServerInstanceInfo
  issued : List ServerInstanceInfo
  procs : List Nat

/-- One broker transition, parameterised by the ON_GAME_SERVER_RESTART
flag (fixed at startup).  Acquire steps remove the queue head (Queue.get
happens first in dequeue_instance); the issued descriptor is the one
run_server_instance produces for the respective flag value.  acquireRaise
covers the paths on which dequeue_instance raises after the get (the
dequeued descriptor is dropped and nothing is issued).  The release step
takes a previously issued descriptor back through enqueue_instance, whose
result determines the successor queue and registry (on an exception the
queue is left unchanged by the code, which the enqueue_instance embedding
already reflects). -/
inductive Step (enabled : Bool) : BrokerState → BrokerState → Prop where
  | acquireStale (h : ServerInstanceInfo) (t issued : List ServerInstanceInfo)
      (procs : List Nat) (henabled : enabled = false) :
      Step enabled ⟨h :: t, issued, procs⟩ ⟨t, issued ++ [staleInstanceInfo], procs⟩
  | acquireRunning (h : ServerInstanceInfo) (t issued : List ServerInstanceInfo)
      (procs : List Nat) (pid port broker_port : Nat) (henabled : enabled = true) :
      Step enabled ⟨h :: t, issued, procs⟩
        ⟨t,
         issued ++ [{ port := some port,
                      ws_url := get_socket_url broker_port port,
                      pid := some pid }],
         procs ++ [pid]⟩
  | acquireRaise (h : ServerInstanceInfo) (t issued : List ServerInstanceInfo)
      (procs : List Nat) :
      Step enabled ⟨h :: t, issued, procs⟩ ⟨t, issued, procs⟩
  | release (pool issued1 issued2 : List ServerInstanceInfo) (procs : List Nat)
      (info : ServerInstanceInfo) (retries : Nat) (status : Nat → ProcStatus) :
      Step enabled ⟨pool, issued1 ++ info :: issued2, procs⟩
        ⟨(enqueue_instance enabled pool procs retries status info).2.1,
         issued1 ++ issued2,
         (enqueue_instance enabled pool procs retries status info).2.2⟩

/-- Broker states reachable from an initial state: the pool starts as some
number of stale placeholders (run_servers appends copies of the descriptor
produced by run_server_instance(should_start_server=False); n = 0 covers
the startup failure actually exhibited by the code), with nothing issued
and an empty registry. -/
inductive Reachable (enabled : Bool) : BrokerState → Prop where
  | init (n : Nat) :
      Reachable enabled ⟨List.replicate n staleInstanceInfo, [], []⟩
  | step {s s2 : BrokerState} :
      Reachable enabled s → Step enabled s s2 → Reachable enabled s2

/-- A launch oracle for concrete scenarios: every attempt emits an empty
output and is accepted. -/
def stubLaunches : Nat → LaunchAttempt :=
  fun _ => { pid := 1, port := 35000, out := "" }

/-- A launch oracle whose first attempt emits the address-already-in-use
marker and whose later attempts emit a clean banner on fresh ports. -/
def conflictingLaunches : Nat → LaunchAttempt :=
  fun n =>
    if n = 0 then { pid := 101, port := 35000, out := ADDRES_IN_USE_ERROR }
    else { pid := 101 + n, port := 35000 + n, out := "Listening on port" }

/-! ## Helper lemmas -/

/-- If the output captured before the retry loop contains the
address-already-in-use marker, the loop never terminates: the condition
re-tests the same string on every iteration. -/
theorem launch_loop_stuck (out0 : String)
    (h : strContains out0 ADDRES_IN_USE_ERROR = true) :
    ∀ fuel n, launch_loop out0 fuel n = none := by
  intro fuel
  induction fuel with
  | zero => intro n; simp [launch_loop, h]
  | succ f ih =>
    intro n
    simp only [launch_loop, h, if_true]
    exact ih (n + 1)

/-- Characterisation of next_free_port on a scan window of at most `n`
ports: the ok results are exactly the first free port of the window, and
the IOError is raised exactly when the window holds no free port. -/
theorem nfp_main (free : Nat → Bool) (hi : Nat) :
    ∀ n lo, hi + 1 - lo ≤ n →
      ((∀ p, next_free_port free lo hi = Except.ok p ↔
          (lo ≤ p ∧ p ≤ hi ∧ free p = true ∧ ∀ q, lo ≤ q → q < p → free q = false)) ∧
       (next_free_port free lo hi = Except.error (PyErr.ioError "no free ports") ↔
          ∀ p, lo ≤ p → p ≤ hi → free p = false)) := by
  intro n
  induction n with
  | zero =>
    intro lo hn
    have hgt : ¬ lo ≤ hi := by omega
    rw [next_free_port, dif_neg hgt]
    constructor
    · intro p
      constructor
      · intro h; cases h
      · rintro ⟨h1, h2, _, _⟩; omega
    · constructor
      · intro _ p h1 h2; omega
      · intro _; rfl
  | succ m ih =>
    intro lo hn
    by_cases hle : lo ≤ hi
    · rw [next_free_port, dif_pos hle]
      by_cases hf : free lo = true
      · rw [if_pos hf]
        constructor
        · intro p
          constructor
          · intro h
            have hp : lo = p := by
              simpa using h
            subst hp
            exact ⟨Nat.le_refl lo, hle, hf, fun q hq1 hq2 => by omega⟩
          · rintro ⟨h1, h2, h3, h4⟩
            have hp : p = lo := by
              by_contra hne
              have hlt : lo < p := Nat.lt_of_le_of_ne h1 (Ne.symm hne)
              have := h4 lo (Nat.le_refl lo) hlt
              rw [hf] at this
              cases this
            subst hp
            rfl
        · constructor
          · intro h; cases h
          · intro hall
            have := hall lo (Nat.le_refl lo) hle
            rw [hf] at this
            cases this
      · have hf2 : free lo = false := by
          cases hb : free lo
          · rfl
          · exact absurd hb hf
        rw [if_neg hf]
        obtain ⟨iha, ihb⟩ := ih (lo + 1) (by omega)
        constructor
        · intro p
          rw [iha p]
          constructor
          · rintro ⟨h1, h2, h3, h4⟩
            refine ⟨by omega, h2, h3, fun q hq1 hq2 => ?_⟩
            rcases Nat.eq_or_lt_of_le hq1 with he | hlt
            · rw [← he]; exact hf2
            · exact h4 q (by omega) hq2
          · rintro ⟨h1, h2, h3, h4⟩
            have hne : p ≠ lo := by
              intro he
              rw [he] at h3
              rw [h3] at hf2
              cases hf2
            exact ⟨by omega, h2, h3, fun q hq1 hq2 => h4 q (by omega) hq2⟩
        · rw [ihb]
          constructor
          · intro hall p hp1 hp2
            rcases Nat.eq_or_lt_of_le hp1 with he | hlt
            · rw [← he]; exact hf2
            · exact hall p (by omega) hp2
          · intro hall p hp1 hp2
            exact hall p (by omega) hp2
    · rw [next_free_port, dif_neg hle]
      constructor
      · intro p
        constructor
        · intro h; cases h
        · rintro ⟨h1, h2, _, _⟩; omega
      · constructor
        · intro _ p h1 h2; omega
        · intro _; rfl

/-- The polling loop observes a dead or zombie status within `retries`
polls starting at index `i` iff some poll among the next `retries` does. -/
theorem kill_wait_iff (status : Nat → ProcStatus) :
    ∀ retries i, kill_wait status i retries = true ↔
      ∃ j, j < retries ∧ isDeadOrZombie (status (i + j)) = true := by
  intro retries
  induction retries with
  | zero => intro i; simp [kill_wait]
  | succ r ih =>
    intro i
    have hunfold : kill_wait status i (r + 1) =
        if isDeadOrZombie (status i) = true then true
        else kill_wait status (i + 1) r := rfl
    by_cases hd : isDeadOrZombie (status i) = true
    · rw [hunfold, if_pos hd]
      constructor
      · intro _
        exact ⟨0, Nat.succ_pos r, by simpa using hd⟩
      · intro _; rfl
    · rw [hunfold, if_neg hd, ih (i + 1)]
      constructor
      · rintro ⟨j, hj, hdj⟩
        refine ⟨j + 1, by omega, ?_⟩
        have harith : i + (j + 1) = i + 1 + j := by omega
        rw [harith]
        exact hdj
      · rintro ⟨j, hj, hdj⟩
        cases j with
        | zero =>
          rw [Nat.add_zero] at hdj
          exact absurd hdj hd
        | succ j2 =>
          refine ⟨j2, by omega, ?_⟩
          have harith : i + 1 + j2 = i + (j2 + 1) := by omega
          rw [harith]
          exact hdj

/-! ## Claim theorems -/

/-- C1: AcquireLease should dequeue a descriptor, launch when configured,
and return the descriptor, failing with PoolExhausted exactly when the
pool is empty.  The code evaluated at the failing input: with one Unbound
descriptor queued, GET /get_ws raises TypeError, because dequeue_instance
calls run_server_instance with the keyword arguments `port` and
`start_server` while the function only accepts `should_start_server`; only
the empty-pool branch matches the claim. -/
theorem dequeue_instance_type_errors :
    (dequeue_instance [staleInstanceInfo] true stubLaunches 8080 [] 5).1 =
      Except.error (PyErr.typeError "got an unexpected keyword argument") ∧
    (dequeue_instance [] true stubLaunches 8080 [] 5).1 =
      Except.error PyErr.queueEmpty :=
  ⟨rfl, rfl⟩

/-- C2: the pool should be populated with exactly N Unbound descriptors at
startup.  The code evaluated at the failing input N = 2: run_servers
passes a raw generator to asyncio.gather (no unpacking, no await), which
raises TypeError, so startup crashes and the pool receives no
descriptors. -/
theorem run_servers_startup_crash :
    run_servers 2 =
      Except.error
        (PyErr.typeError "An asyncio.Future, a coroutine or an awaitable is required") :=
  rfl

/-- C6: the launch retry should repeat until an attempt succeeds without
the address-in-use marker.  The code evaluated at the failing input: with
a first attempt whose output contains the marker and all later attempts
clean, the retry loop never terminates for any number of iterations,
because proc_out is read once before the loop and never re-read. -/
theorem launch_retry_diverges :
    ∀ fuel : Nat, run_server_instance true conflictingLaunches 8080 [] fuel = none := by
  intro fuel
  have hc : strContains (conflictingLaunches 0).out ADDRES_IN_USE_ERROR = true := rfl
  simp [run_server_instance, launch_loop_stuck (conflictingLaunches 0).out hc]

/-- C8: with pool size 2 and launching disabled, the first two AcquireLease
calls should succeed.  The code evaluated at the failing input: on a pool
of two stale placeholders the very first call already raises TypeError
(the keyword-argument mismatch of the run_server_instance call), so it
does not return a descriptor. -/
theorem stale_scenario_first_acquire_fails :
    (dequeue_instance [staleInstanceInfo, staleInstanceInfo] false stubLaunches 8080 [] 5).1 =
      Except.error (PyErr.typeError "got an unexpected keyword argument") :=
  rfl

/-- C7: next_free_port scans the ports of [port, max_port] inclusive in
increasing order, probing each with the bind oracle, and returns the first
free port; it raises IOError("no free ports") exactly when no port of the
range is free. -/
theorem next_free_port_spec (free : Nat → Bool) (lo hi : Nat) :
    (∀ p, next_free_port free lo hi = Except.ok p ↔
        (lo ≤ p ∧ p ≤ hi ∧ free p = true ∧ ∀ q, lo ≤ q → q < p → free q = false)) ∧
    (next_free_port free lo hi = Except.error (PyErr.ioError "no free ports") ↔
        ∀ p, lo ≤ p → p ≤ hi → free p = false) :=
  nfp_main free hi (hi + 1 - lo) lo (Nat.le_refl _)

/-- Witness for C7: on the default range with only port 35001 free, the
scan returns 35001. -/
theorem next_free_port_spec_witness :
    next_free_port (fun p => p == 35001) 35000 36000 = Except.ok 35001 := by
  refine ((next_free_port_spec (fun p => p == 35001) 35000 36000).1 35001).mpr
    ⟨by omega, by omega, by decide, ?_⟩
  intro q h1 h2
  have hq : q = 35000 := by omega
  subst hq
  decide

/-- C5: kill_server sends the kill signal unconditionally and removes the
pid from the PROCS registry exactly once (the count drops by one, whatever
the later outcome), then polls the process status up to the configured
retry count: it returns as soon as a dead or zombie state is observed, and
it raises the fatal RuntimeError exactly when every poll within the retry
budget still sees the process alive. -/
theorem kill_server_spec (procs : List Nat) (pid retries : Nat)
    (status : Nat → ProcStatus) (hmem : pid ∈ procs) :
    (kill_server procs pid retries status).1 = procs.erase pid ∧
    ((kill_server procs pid retries status).1).count pid = procs.count pid - 1 ∧
    ((kill_server procs pid retries status).2 = Except.ok () ↔
      ∃ i, i < retries ∧ isDeadOrZombie (status i) = true) ∧
    ((kill_server procs pid retries status).2 =
        Except.error (PyErr.runtimeError "could not be killed") ↔
      ∀ i, i < retries → isDeadOrZombie (status i) = false) := by
  have h1 : (kill_server procs pid retries status).1 = procs.erase pid := by
    unfold kill_server
    rw [if_pos hmem]
    by_cases hk : kill_wait status 0 retries = true
    · rw [if_pos hk]
    · rw [if_neg hk]
  have h2 : (kill_server procs pid retries status).2 =
      if kill_wait status 0 retries = true then Except.ok ()
      else Except.error (PyErr.runtimeError "could not be killed") := by
    unfold kill_server
    rw [if_pos hmem]
    by_cases hk : kill_wait status 0 retries = true
    · rw [if_pos hk, if_pos hk]
    · rw [if_neg hk, if_neg hk]
  refine ⟨h1, by rw [h1]; exact List.count_erase_self pid procs, ?_, ?_⟩
  · rw [h2]
    by_cases hk : kill_wait status 0 retries = true
    · rw [if_pos hk]
      have hex := (kill_wait_iff status retries 0).mp hk
      constructor
      · intro _
        simpa using hex
      · intro _; rfl
    · rw [if_neg hk]
      constructor
      · intro h; cases h
      · intro hex
        exact absurd ((kill_wait_iff status retries 0).mpr (by simpa using hex)) hk
  · rw [h2]
    by_cases hk : kill_wait status 0 retries = true
    · rw [if_pos hk]
      have hex := (kill_wait_iff status retries 0).mp hk
      constructor
      · intro h; cases h
      · intro hall
        obtain ⟨j, hj, hdj⟩ := hex
        rw [Nat.zero_add] at hdj
        rw [hall j hj] at hdj
        cases hdj
    · rw [if_neg hk]
      constructor
      · intro _ i hi
        cases hb : isDeadOrZombie (status i)
        · rfl
        · exact absurd ((kill_wait_iff status retries 0).mpr ⟨i, hi, by simpa using hb⟩) hk
      · intro _; rfl

/-- Witness for C5: a registered pid whose first poll sees a zombie is
removed from the registry and the call returns success. -/
theorem kill_server_spec_witness :
    (kill_server [5] 5 1 (fun _ => ProcStatus.zombie)).1 = [] ∧
    (kill_server [5] 5 1 (fun _ => ProcStatus.zombie)).2 = Except.ok () := by
  have h := kill_server_spec [5] 5 1 (fun _ => ProcStatus.zombie) (by decide)
  constructor
  · rw [h.1]; rfl
  · exact h.2.2.1.mpr ⟨0, by omega, rfl⟩

/-- C3: DrainResults fails (with RuntimeError "Must play a game first")
iff the buffer is empty; otherwise it returns the whole buffer and leaves
it empty; hence SubmitResult(x) on an empty buffer followed by
DrainResults yields exactly [x], and a second drain on the cleared buffer
fails. -/
theorem drain_results_spec :
    (∀ results : List String,
        (∃ e, send_and_clear_results results = Except.error e) ↔ results = []) ∧
    (∀ (results snap rest : List String),
        send_and_clear_results results = Except.ok (snap, rest) →
          snap = results ∧ rest = []) ∧
    (∀ x : String, send_and_clear_results (append_results [] x) = Except.ok ([x], [])) ∧
    send_and_clear_results ([] : List String) =
      Except.error (PyErr.runtimeError "Must play a game first") := by
  refine ⟨?_, ?_, ?_, rfl⟩
  · intro results
    constructor
    · rintro ⟨e, he⟩
      cases results with
      | nil => rfl
      | cons a t => simp [send_and_clear_results] at he
    · rintro rfl
      exact ⟨PyErr.runtimeError "Must play a game first", rfl⟩
  · intro results snap rest h
    cases results with
    | nil => cases h
    | cons a t =>
      simp [send_and_clear_results] at h
      exact ⟨h.1.symm, h.2⟩
  · intro x; rfl

/-- Witness for C3: submitting one payload into the empty buffer and
draining returns exactly that payload and clears the buffer. -/
theorem drain_results_spec_witness :
    send_and_clear_results (append_results [] "res") = Except.ok (["res"], []) :=
  drain_results_spec.2.2.1 "res"

/-- C4: ReleaseLease with recycling disabled re-enqueues the returned
descriptor unchanged; with recycling enabled it terminates the worker
bound to info.pid and re-enqueues a fresh descriptor with the same port
and ws_url but pid = Undefined, removing the pid from the registry, while
a termination timeout propagates as a fatal error and nothing is
enqueued. -/
theorem enqueue_instance_spec (pool : List ServerInstanceInfo) (procs : List Nat)
    (retries : Nat) (status : Nat → ProcStatus) (info : ServerInstanceInfo) :
    enqueue_instance false pool procs retries status info =
      (Except.ok (), pool ++ [info], procs) ∧
    (∀ pid, info.pid = some pid → pid ∈ procs →
      ((∃ i, i < retries ∧ isDeadOrZombie (status i) = true) →
        enqueue_instance true pool procs retries status info =
          (Except.ok (),
           pool ++ [{ port := info.port, ws_url := info.ws_url, pid := none }],
           procs.erase pid)) ∧
      ((∀ i, i < retries → isDeadOrZombie (status i) = false) →
        (enqueue_instance true pool procs retries status info).1 =
          Except.error (PyErr.runtimeError "could not be killed") ∧
        (enqueue_instance true pool procs retries status info).2.1 = pool)) := by
  constructor
  · rfl
  · intro pid hpid hmem
    have hks := kill_server_spec procs pid retries status hmem
    constructor
    · intro hex
      have hok : (kill_server procs pid retries status).2 = Except.ok () :=
        hks.2.2.1.mpr hex
      have hfst : (kill_server procs pid retries status).1 = procs.erase pid := hks.1
      rcases hkse : kill_server procs pid retries status with ⟨procs2, r⟩
      rw [hkse] at hok hfst
      simp only at hok hfst
      subst hok
      subst hfst
      simp only [enqueue_instance, hpid, hkse]
      rfl
    · intro hall
      have herr : (kill_server procs pid retries status).2 =
          Except.error (PyErr.runtimeError "could not be killed") :=
        hks.2.2.2.mpr hall
      rcases hkse : kill_server procs pid retries status with ⟨procs2, r⟩
      rw [hkse] at herr
      simp only at herr
      subst herr
      simp only [enqueue_instance, hpid, hkse]
      exact ⟨rfl, rfl⟩

/-- Witness for C4: with recycling enabled a returned Running descriptor
is recycled into an Unbound one at the same port and its pid leaves the
registry; with recycling disabled the descriptor is re-enqueued
unchanged. -/
theorem enqueue_instance_spec_witness :
    enqueue_instance true [] [7] 1 (fun _ => ProcStatus.dead)
        { port := some 35000, ws_url := "u", pid := some 7 } =
      (Except.ok (), [{ port := some 35000, ws_url := "u", pid := none }], []) ∧
    enqueue_instance false [] [7] 1 (fun _ => ProcStatus.dead)
        { port := some 35000, ws_url := "u", pid := some 7 } =
      (Except.ok (), [{ port := some 35000, ws_url := "u", pid := some 7 }], [7]) := by
  have h := enqueue_instance_spec [] [7] 1 (fun _ => ProcStatus.dead)
      { port := some 35000, ws_url := "u", pid := some 7 }
  constructor
  · have h2 := (h.2 7 rfl (by decide)).1 ⟨0, by omega, rfl⟩
    have h3 : ([7] : List Nat).erase 7 = [] := rfl
    rw [h3] at h2
    simpa using h2
  · simpa using h.1

/-- Every descriptor in the queue after enqueue_instance was already in
the queue, or is Unbound, or (only with recycling disabled) is the
returned descriptor itself, enqueued unchanged. -/
theorem enqueue_pool_mem (enabled : Bool) (pool : List ServerInstanceInfo)
    (procs : List Nat) (retries : Nat) (status : Nat → ProcStatus)
    (info : ServerInstanceInfo) :
    ∀ d ∈ (enqueue_instance enabled pool procs retries status info).2.1,
      d ∈ pool ∨ d.pid = none ∨ (enabled = false ∧ d = info) := by
  intro d hd
  unfold enqueue_instance at hd
  split at hd
  · split at hd
    · exact Or.inl hd
    · split at hd
      · rcases List.mem_append.mp hd with h1 | h2
        · exact Or.inl h1
        · have hde : d = { port := info.port, ws_url := info.ws_url, pid := none } := by
            simpa using h2
          exact Or.inr (Or.inl (by rw [hde]))
      · exact Or.inl hd
  · rename_i he
    have hf : enabled = false := by
      cases hb : enabled
      · rfl
      · exact absurd hb he
    rcases List.mem_append.mp hd with h1 | h2
    · exact Or.inl h1
    · have hde : d = info := by simpa using h2
      exact Or.inr (Or.inr ⟨hf, hde⟩)

/-- C9: in every broker state reachable from an initial pool of stale
placeholders, every descriptor stored in the pool queue has pid =
Undefined; the invariant is preserved by the initial population, by
AcquireLease (which only removes from the queue) and by ReleaseLease in
both the recycling and the non-recycling configuration (the latter because
a protocol-abiding client can only return a descriptor it was issued, and
with launching disabled only Stale descriptors are ever issued). -/
theorem pool_invariant (enabled : Bool) (s : BrokerState)
    (h : Reachable enabled s) : ∀ d ∈ s.pool, d.pid = none := by
  have main : (∀ d ∈ s.pool, d.pid = none) ∧
      (enabled = false → ∀ d ∈ s.issued, d.pid = none) := by
    induction h with
    | init n =>
      constructor
      · intro d hd
        have hde := List.eq_of_mem_replicate hd
        rw [hde]
        rfl
      · intro _ d hd
        exact absurd hd (List.not_mem_nil d)
    | step hr hstep ih =>
      obtain ⟨ih1, ih2⟩ := ih
      cases hstep with
      | acquireStale h0 t issued procs henabled =>
        constructor
        · intro d hd
          exact ih1 d (List.mem_cons_of_mem h0 hd)
        · intro hf d hd
          rcases List.mem_append.mp hd with h1 | h2
          · exact ih2 hf d h1
          · have hde : d = staleInstanceInfo := by simpa using h2
            rw [hde]
            rfl
      | acquireRunning h0 t issued procs pid port broker_port henabled =>
        constructor
        · intro d hd
          exact ih1 d (List.mem_cons_of_mem h0 hd)
        · intro hf
          rw [hf] at henabled
          cases henabled
      | acquireRaise h0 t issued procs =>
        exact ⟨fun d hd => ih1 d (List.mem_cons_of_mem h0 hd), fun hf d hd => ih2 hf d hd⟩
      | release pool issued1 issued2 procs info retries status =>
        constructor
        · intro d hd
          rcases enqueue_pool_mem enabled pool procs retries status info d hd
            with h1 | h2 | h3
          · exact ih1 d h1
          · exact h2
          · obtain ⟨hf, hde⟩ := h3
            rw [hde]
            exact ih2 hf info
              (List.mem_append.mpr (Or.inr (List.mem_cons_self info issued2)))
        · intro hf d hd
          rcases List.mem_append.mp hd with h1 | h2
          · exact ih2 hf d (List.mem_append.mpr (Or.inl h1))
          · exact ih2 hf d (List.mem_append.mpr (Or.inr (List.mem_cons_of_mem info h2)))
  exact main.1

/-- Witness for C9: the invariant applied to the initial one-slot pool
gives that its descriptor is Unbound. -/
theorem pool_invariant_witness : staleInstanceInfo.pid = none :=
  pool_invariant false ⟨List.replicate 1 staleInstanceInfo, [], []⟩
    (Reachable.init 1) staleInstanceInfo (by simp)

/-- C10: the launch decision passed at the dequeue call site and the
recycling condition tested on return read the same configuration flag
(FeatureConfig.ON_GAME_SERVER_RESTART.enabled), so no configuration can
launch without recycling or recycle without launching: when the flag is
off, a dequeue-side run of run_server_instance issues the stale descriptor
and leaves the registry untouched, and a return is re-enqueued without any
termination; when the flag is on, every descriptor a successful
dequeue-side run produces carries a freshly registered pid. -/
theorem launch_recycle_same_flag (cfg : FeatureConfig) :
    dequeue_start_server_arg cfg = enqueue_restart_condition cfg ∧
    (dequeue_start_server_arg cfg = false →
      ∀ (launches : Nat → LaunchAttempt) (broker_port : Nat) (procs : List Nat)
        (fuel : Nat),
        run_server_instance (dequeue_start_server_arg cfg) launches broker_port
          procs fuel = some (staleInstanceInfo, procs)) ∧
    (dequeue_start_server_arg cfg = true →
      ∀ (launches : Nat → LaunchAttempt) (broker_port : Nat) (procs : List Nat)
        (fuel : Nat) (info : ServerInstanceInfo) (procs2 : List Nat),
        run_server_instance (dequeue_start_server_arg cfg) launches broker_port
          procs fuel = some (info, procs2) →
        ∃ pid, info.pid = some pid ∧ procs2 = procs ++ [pid]) ∧
    (enqueue_restart_condition cfg = false →
      ∀ (pool : List ServerInstanceInfo) (procs : List Nat) (retries : Nat)
        (status : Nat → ProcStatus) (info : ServerInstanceInfo),
        enqueue_instance (enqueue_restart_condition cfg) pool procs retries
          status info = (Except.ok (), pool ++ [info], procs)) := by
  refine ⟨rfl, ?_, ?_, ?_⟩
  · intro h launches broker_port procs fuel
    rw [h]
    rfl
  · intro h launches broker_port procs fuel info procs2 heq
    rw [h] at heq
    unfold run_server_instance at heq
    rcases hll : launch_loop (launches 0).out fuel 0 with _ | n
    · rw [hll] at heq
      simp at heq
    · rw [hll] at heq
      simp only [Bool.not_true, Bool.false_eq_true, if_false, Option.some.injEq] at heq
      obtain ⟨h1, h2⟩ := Prod.mk.injEq .. ▸ heq
      refine ⟨(launches n).pid, ?_, ?_⟩
      · rw [← h1]
      · rw [← h2]
  · intro h pool procs retries status info
    rw [h]
    rfl

/-- Witness for C10: with the flag off, the dequeue side issues the stale
descriptor without touching the registry and the return side re-enqueues
the descriptor unchanged. -/
theorem launch_recycle_same_flag_witness :
    run_server_instance false stubLaunches 8080 [] 0 = some (staleInstanceInfo, []) ∧
    enqueue_instance false [] [] 0 (fun _ => ProcStatus.dead) staleInstanceInfo =
      (Except.ok (), [staleInstanceInfo], []) := by
  have h := launch_recycle_same_flag (FeatureConfig.mk false 1 1)
  constructor
  · exact h.2.1 rfl stubLaunches 8080 [] 0
  · have h2 := h.2.2.2 rfl [] [] 0 (fun _ => ProcStatus.dead) staleInstanceInfo
    simpa using h2

end LaunchServers
